import Mathlib

/-!
Verification of the SME-Pulse financial health scoring engine against its
natural-language specification.  Numeric values carried by the code
(JavaScript numbers, SQL DOUBLE PRECISION) are embedded as rationals (ℚ);
every formula used by the claims is exact at the inputs considered.

The repository ships the database schema and seed data (database/init.sql),
the React frontend pages, and documentation; the backend scoring engine
itself (services/financial_analysis.py and friends, listed in the
implementation plan) is not among the shipped sources.  Definitions taken
from shipped code say so in their doc comment; definitions reconstructed
from the specification are marked `Modelled from the spec:`.
-/

namespace SMEPulse

/-- The four badge colors returned by `getScoreColor` in
frontend HealthScore.tsx, ordered from worst to best. -/
inductive ScoreColor
  | danger
  | warning
  | primary
  | success
deriving DecidableEq, Repr

/-- Ordinal rank of a score color: danger 0, warning 1, primary 2, success 3. -/
def ScoreColor.rank : ScoreColor → ℕ
  | .danger => 0
  | .warning => 1
  | .primary => 2
  | .success => 3

/-- From frontend HealthScore.tsx: `getScoreColor` maps a numeric score to a
badge color: `score >= 80` gives success, `score >= 60` primary,
`score >= 40` warning, otherwise danger. -/
def getScoreColor (score : ℚ) : ScoreColor :=
  if score ≥ 80 then .success
  else if score ≥ 60 then .primary
  else if score ≥ 40 then .warning
  else .danger

/-- The `risk_level` enum of database/init.sql (`low, medium, high, critical`). -/
inductive RiskLevel
  | low
  | medium
  | high
  | critical
deriving DecidableEq, Repr

/-- Ordinal rank of a risk level, low 0 up to critical 3. -/
def RiskLevel.rank : RiskLevel → ℕ
  | .low => 0
  | .medium => 1
  | .high => 2
  | .critical => 3

/-- The string form of a risk level, as stored in the database enum. -/
def RiskLevel.name : RiskLevel → String
  | .low => "low"
  | .medium => "medium"
  | .high => "high"
  | .critical => "critical"

/-- Modelled from the spec: the risk band of an overall score
(§4.4: ≥80 low, ≥60 medium, ≥40 high, <40 critical).  The banding code of
the Composite Scorer (services/financial_analysis.py) is not among the
shipped sources. -/
def riskBand (overall : ℚ) : RiskLevel :=
  if overall ≥ 80 then .low
  else if overall ≥ 60 then .medium
  else if overall ≥ 40 then .high
  else .critical

/-- Modelled from the spec: escalation by exactly one band, capped at
critical (§4.4). -/
def escalateOne : RiskLevel → RiskLevel
  | .low => .medium
  | .medium => .high
  | .high => .critical
  | .critical => .critical

/-- Anomaly severities share the `risk_level` enum in database/init.sql
(`anomalies.severity risk_level NOT NULL`). -/
abbrev Severity := RiskLevel

/-- An anomaly record as in the `anomalies` table of database/init.sql:
a type tag, a severity, and the resolution flag (`is_resolved BOOLEAN
DEFAULT FALSE`). -/
structure Anomaly where
  anomaly_type : String
  severity : Severity
  is_resolved : Bool
deriving DecidableEq, Repr

/-- The open (unresolved) anomalies of a list. -/
def openAnomalies (as : List Anomaly) : List Anomaly :=
  as.filter (fun a => !a.is_resolved)

/-- Modelled from the spec: the risk level reported for a scoring run
(§4.4): band the overall score, escalate one band if any open anomaly has
severity critical, escalate one further band if three or more anomalies are
open.  The Composite Scorer source is not among the shipped files. -/
def riskLevelOf (overall : ℚ) (as : List Anomaly) : RiskLevel :=
  let base := riskBand overall
  let opens := openAnomalies as
  let r1 := if opens.any (fun a => a.severity = RiskLevel.critical)
            then escalateOne base else base
  if opens.length ≥ 3 then escalateOne r1 else r1

/-! Seed data from database/init.sql and the hard-coded frontend mock
values, embedded verbatim. -/

/-- Seed `health_scores` row of database/init.sql: `overall_score = 72.5`. -/
def seedOverallScore : ℚ := 725 / 10

/-- Seed `health_scores` row: `cash_flow_score = 78.0`. -/
def seedCashFlow : ℚ := 78

/-- Seed `health_scores` row: `profitability_score = 68.0`. -/
def seedProfitability : ℚ := 68

/-- Seed `health_scores` row: `leverage_score = 75.0`. -/
def seedLeverage : ℚ := 75

/-- Seed `health_scores` row: `efficiency_score = 70.0`. -/
def seedEfficiency : ℚ := 70

/-- Seed `health_scores` row: `stability_score = 65.0`. -/
def seedStability : ℚ := 65

/-- Seed `health_scores` row: `risk_level = 'medium'`. -/
def seedRiskLevel : String := "medium"

/-- Frontend HealthScore.tsx mock: `const score = 72.5`. -/
def healthScorePageScore : ℚ := 725 / 10

/-- Frontend HealthScore.tsx mock: `const riskLevel = 'low'`. -/
def healthScorePageRiskLevel : String := "low"

/-- Frontend HealthScore.tsx `scoreComponents` weights, in display order
cash flow, profitability, leverage, efficiency, stability. -/
def pageWeights : List ℚ := [25, 25, 20, 15, 15]

/-! ## Composite Scorer (modelled from the spec §4.4) -/

/-- Rounding a rational to one decimal place: round half away from zero at
the second decimal, as the spec's `rounded to one decimal place` (§4.4). -/
def roundTo1 (x : ℚ) : ℚ := (round (x * 10) : ℤ) / 10

/-- The five component scores of a health score (schema columns
`cash_flow_score … stability_score` of database/init.sql), each either a
value or the explicit undefined marker. -/
structure ComponentScores where
  cash_flow : Option ℚ
  profitability : Option ℚ
  leverage : Option ℚ
  efficiency : Option ℚ
  stability : Option ℚ
deriving DecidableEq, Repr

/-- Weighted contribution of one optional component score: `w * x` when
defined, `0` when undefined (the undefined component drops out). -/
def wpart (w : ℚ) : Option ℚ → ℚ
  | some x => w * x
  | none => 0

/-- Weight mass contributed by one optional component: `w` when the
component is defined, `0` when undefined. -/
def dpart (w : ℚ) : Option ℚ → ℚ
  | some _ => w
  | none => 0

/-- Modelled from the spec: numerator of the renormalized weighted sum over
the defined components, with the fixed weights 25/25/20/15/15 (§3, §4.4). -/
def weightedSum (c : ComponentScores) : ℚ :=
  wpart 25 c.cash_flow + wpart 25 c.profitability + wpart 20 c.leverage +
    wpart 15 c.efficiency + wpart 15 c.stability

/-- Modelled from the spec: total weight of the defined components (the
denominator that renormalizes the weights, §4.4). -/
def definedWeight (c : ComponentScores) : ℚ :=
  dpart 25 c.cash_flow + dpart 25 c.profitability + dpart 20 c.leverage +
    dpart 15 c.efficiency + dpart 15 c.stability

/-- Modelled from the spec: `overall_score` = Σ(component ×
renormalized weight), rounded to one decimal place; undefined when every
component is undefined (§4.4).  The Composite Scorer source
(services/financial_analysis.py) is not among the shipped files. -/
def overallScore (c : ComponentScores) : Option ℚ :=
  if definedWeight c = 0 then none
  else some (roundTo1 (weightedSum c / definedWeight c))

/-! ## Ratio Calculator (modelled from the spec §4.2) -/

/-- A period's aggregated figures (spec §3, §6): every balance-sheet field
is individually optional; absence degrades gracefully. -/
structure PeriodAggregate where
  total_inflows : ℚ
  total_outflows : ℚ
  current_assets : Option ℚ
  current_liabilities : Option ℚ
  inventory : Option ℚ
  cash_and_equivalents : Option ℚ
  total_debt : Option ℚ
  equity : Option ℚ
  total_assets : Option ℚ
  ebit : Option ℚ
  interest_expense : Option ℚ
  annual_debt_service : Option ℚ
  annual_net_operating_income : Option ℚ
  revenue : Option ℚ
  gross_profit : Option ℚ
  net_income : Option ℚ
  average_receivables : Option ℚ
  average_payables : Option ℚ
  average_inventory : Option ℚ
deriving DecidableEq, Repr

/-- Subtraction of optional figures: defined only when both operands are. -/
def osub : Option ℚ → Option ℚ → Option ℚ
  | some a, some b => some (a - b)
  | _, _ => none

/-- Division-by-zero-guarded division of optional figures (§4.2): undefined
when either operand is missing or the denominator is zero — never infinity,
never zero, never an exception. -/
def safeDiv : Option ℚ → Option ℚ → Option ℚ
  | some n, some d => if d = 0 then none else some (n / d)
  | _, _ => none

/-- Guarded division for a denominator that must be strictly positive
(§4.2: e.g. negative equity for debt_to_equity gives undefined). -/
def safeDivPos : Option ℚ → Option ℚ → Option ℚ
  | some n, some d => if d ≤ 0 then none else some (n / d)
  | _, _ => none

/-- Express an optional ratio as a percentage (×100), as the spec's margin
formulas require (§4.2). -/
def pct : Option ℚ → Option ℚ :=
  Option.map (fun x => x * 100)

/-- The full ratio set (spec §3; column-for-column the `financial_metrics`
table of database/init.sql): each field is a finite value or the explicit
undefined marker. -/
structure RatioSet where
  current_ratio : Option ℚ
  quick_ratio : Option ℚ
  cash_ratio : Option ℚ
  debt_to_equity : Option ℚ
  debt_to_assets : Option ℚ
  interest_coverage_ratio : Option ℚ
  receivables_turnover : Option ℚ
  payables_turnover : Option ℚ
  inventory_turnover : Option ℚ
  gross_margin : Option ℚ
  operating_margin : Option ℚ
  net_margin : Option ℚ
  return_on_assets : Option ℚ
  return_on_equity : Option ℚ
  dscr : Option ℚ
deriving DecidableEq, Repr

/-- Modelled from the spec: the Ratio Calculator (§4.2), a pure function of
one PeriodAggregate with every division guarded.  Operating margin uses
EBIT over revenue (the snapshot of §6 carries no separate operating-income
field).  The calculator source (services/financial_analysis.py) is not
among the shipped files. -/
def computeRatios (a : PeriodAggregate) : RatioSet where
  current_ratio := safeDiv a.current_assets a.current_liabilities
  quick_ratio := safeDiv (osub a.current_assets a.inventory) a.current_liabilities
  cash_ratio := safeDiv a.cash_and_equivalents a.current_liabilities
  debt_to_equity := safeDivPos a.total_debt a.equity
  debt_to_assets := safeDiv a.total_debt a.total_assets
  interest_coverage_ratio := safeDiv a.ebit a.interest_expense
  receivables_turnover := safeDiv a.revenue a.average_receivables
  payables_turnover := safeDiv a.revenue a.average_payables
  inventory_turnover := safeDiv a.revenue a.average_inventory
  gross_margin := pct (safeDiv a.gross_profit a.revenue)
  operating_margin := pct (safeDiv a.ebit a.revenue)
  net_margin := pct (safeDiv a.net_income a.revenue)
  return_on_assets := safeDiv a.net_income a.total_assets
  return_on_equity := safeDivPos a.net_income a.equity
  dscr := safeDiv a.annual_net_operating_income a.annual_debt_service

/-! ## Ratio-to-component scoring (modelled from the spec §4.4) -/

/-- Clamp a value to the closed interval [0,100] (§3: component scores are
clamped even when the underlying ratio is pathological). -/
def clamp01 (x : ℚ) : ℚ := max 0 (min 100 x)

/-- Modelled from the spec: linear interpolation of a ratio onto a 0–100
scale between a `poor` and an `excellent` benchmark bound, clamped (§4.4,
e.g. current_ratio: 0 at ≤0.5, 100 at ≥2.5).  An undefined ratio yields an
undefined score. -/
def ratioScore (poor excellent : ℚ) (r : Option ℚ) : Option ℚ :=
  r.map (fun x => clamp01 ((x - poor) / (excellent - poor) * 100))

/-- Modelled from the spec: a component score is the arithmetic mean of
whichever of its contributing ratio-scores are defined; undefined when all
contributors are undefined (§4.4). -/
def componentScore (l : List (Option ℚ)) : Option ℚ :=
  let d := l.filterMap id
  if d.length = 0 then none else some (d.sum / (d.length : ℚ))

/-- Modelled from the spec: the fixed sub-mapping of ratios to the five
components (§4.4; only the current_ratio benchmark pair 0.5/2.5 is given in
the spec, the remaining benchmark bounds are representative — every claim
proved below is independent of the exact bounds). -/
def scoreComponents (r : RatioSet) : ComponentScores where
  cash_flow := componentScore
    [ratioScore (1/2) (5/2) r.current_ratio,
     ratioScore (1/2) (3/2) r.quick_ratio,
     ratioScore 0 (3/4) r.cash_ratio]
  profitability := componentScore
    [ratioScore 0 50 r.gross_margin,
     ratioScore 0 20 r.operating_margin,
     ratioScore 0 15 r.net_margin,
     ratioScore 0 (15/100) r.return_on_assets,
     ratioScore 0 (25/100) r.return_on_equity]
  leverage := componentScore
    [ratioScore 2 0 r.debt_to_equity,
     ratioScore 1 0 r.debt_to_assets,
     ratioScore 1 5 r.interest_coverage_ratio]
  efficiency := componentScore
    [ratioScore 2 12 r.receivables_turnover,
     ratioScore 2 12 r.payables_turnover,
     ratioScore 1 8 r.inventory_turnover]
  stability := componentScore
    [ratioScore 1 2 r.dscr]

/-! ## Transaction Normalizer (modelled from the spec §4.1) -/

/-- A raw transaction record as supplied by the ingestion collaborator
(§6): date, signed amount, description, optional counterparty. -/
structure RawTxn where
  date : String
  amount : ℚ
  description : String
  counterparty : Option String
deriving DecidableEq, Repr

/-- A normalized transaction: the raw fields plus the assigned
`transaction_type` and `category` (columns of the `transactions` table in
database/init.sql). -/
structure NormTxn where
  date : String
  amount : ℚ
  description : String
  counterparty : Option String
  transaction_type : String
  category : String
deriving DecidableEq, Repr

/-- Whether the first list is a prefix of the second (executable). -/
def charPrefix : List Char → List Char → Bool
  | [], _ => true
  | _ :: _, [] => false
  | a :: as, b :: bs => a == b && charPrefix as bs

/-- Whether the first list occurs contiguously inside the second
(executable). -/
def charInfix (p : List Char) : List Char → Bool
  | [] => charPrefix p []
  | b :: bs => charPrefix p (b :: bs) || charInfix p bs

/-- Lower-casing of an ASCII letter, for case-insensitive keyword rules. -/
def lowerChar (c : Char) : Char :=
  if c.isUpper then Char.ofNat (c.toNat + 32) else c

/-- Case-insensitive keyword containment in a description. -/
def matchesKeyword (desc kw : String) : Bool :=
  charInfix kw.toList (desc.toList.map lowerChar)

/-- Modelled from the spec: the fixed keyword→category rule table (§4.1
gives the examples "salary"→payroll and "gst"→tax; the Normalizer source is
not among the shipped files). -/
def categoryRules : List (String × String) :=
  [("salary", "payroll"), ("gst", "tax"), ("rent", "rent"),
   ("interest", "interest"), ("fuel", "transport")]

/-- The first rule whose keyword occurs in the description, if any. -/
def classifyCategory (desc : String) : Option String :=
  (categoryRules.find? (fun rule => matchesKeyword desc rule.1)).map (·.2)

/-- Modelled from the spec: normalization of one transaction (§4.1):
`transaction_type` is "credit" if amount > 0 else "debit" (amount = 0 is
"debit" by convention); `category` falls back to "uncategorized" when no
rule matches.  Total — it never fails. -/
def normalizeOne (t : RawTxn) : NormTxn where
  date := t.date
  amount := t.amount
  description := t.description
  counterparty := t.counterparty
  transaction_type := if t.amount > 0 then "credit" else "debit"
  category := (classifyCategory t.description).getD "uncategorized"

/-- Modelled from the spec: the Transaction Normalizer over a list — one
output per input, no filtering (§4.1). -/
def normalize (ts : List RawTxn) : List NormTxn :=
  ts.map normalizeOne

/-! ## Anomaly Detector: large_transaction rule (modelled from the spec §4.3) -/

/-- Modelled from the spec: the large-transaction threshold
`max(3 × the mean absolute transaction amount, an absolute floor)` (§4.3). -/
def largeThreshold (baselineMean floorAmt : ℚ) : ℚ :=
  max (3 * baselineMean) floorAmt

/-- Modelled from the spec: severity scaling with how many multiples the
amount stands over the threshold (§4.3; consistent with the seed anomaly of
database/init.sql, which records severity medium at amount 500000 against
threshold 250000, i.e. 2 multiples). -/
def largeTxnSeverity (multiples : ℚ) : Severity :=
  if multiples ≥ 5 then .critical
  else if multiples ≥ 3 then .high
  else if multiples ≥ 2 then .medium
  else .low

/-- A large-transaction anomaly record: the triggering transaction plus the
structured evidence of §3 (computed threshold, severity). -/
structure LargeTxnAnomaly where
  txn : RawTxn
  threshold : ℚ
  severity : Severity
deriving DecidableEq, Repr

/-- Modelled from the spec: the large_transaction rule (§4.3): flag exactly
the transactions whose absolute amount exceeds the threshold; each flagged
transaction yields one anomaly record carrying the computed threshold and a
severity scaled by the multiple over it.  The detector source
(services/financial_analysis.py) is not among the shipped files. -/
def detectLarge (baselineMean floorAmt : ℚ) (ts : List RawTxn) :
    List LargeTxnAnomaly :=
  (ts.filter (fun t =>
      decide (largeThreshold baselineMean floorAmt < |t.amount|))).map
    (fun t =>
      { txn := t
        threshold := largeThreshold baselineMean floorAmt
        severity :=
          largeTxnSeverity (|t.amount| / largeThreshold baselineMean floorAmt) })

/-! ## Credit rating, HealthScore assembly, Narrative Formatter -/

/-- Modelled from the spec: the monotone seven-point letter scale over
overall_score bands (§4.4); the cut points are chosen so that the seed row
of database/init.sql (overall 72.5 → 'BBB') is reproduced. -/
def creditRating (overall : ℚ) : String :=
  if overall ≥ 90 then "AAA"
  else if overall ≥ 80 then "AA"
  else if overall ≥ 75 then "A"
  else if overall ≥ 65 then "BBB"
  else if overall ≥ 50 then "BB"
  else if overall ≥ 35 then "B"
  else "CCC"

/-- A health score value object (the `health_scores` row of
database/init.sql restricted to the engine-computed fields). -/
structure HealthScore where
  overall_score : Option ℚ
  components : ComponentScores
  risk_level : RiskLevel
  credit_rating : String
deriving DecidableEq, Repr

/-- Modelled from the spec: the Composite Scorer end to end (§4.4): ratios
to component scores, renormalized weighted overall score, risk level with
anomaly escalation, credit rating. -/
def healthScoreOf (r : RatioSet) (as : List Anomaly) : HealthScore :=
  let c := scoreComponents r
  let o := overallScore c
  { overall_score := o
    components := c
    risk_level := riskLevelOf (o.getD 0) as
    credit_rating := (o.map creditRating).getD "NR" }

/-- Modelled from the spec: the Narrative Formatter is pure template
substitution over the Scorer's output (§4.5) — no randomness, no external
calls. -/
def formatNarrative (h : HealthScore) : String :=
  "Risk level: " ++ h.risk_level.name ++ ". Credit rating: " ++
    h.credit_rating ++ "."

/-! ## Predicates and concrete scenario inputs used by the claims -/

/-- An optional score that, whenever defined, lies in the closed interval
[0,100]. -/
def optInRange (o : Option ℚ) : Prop :=
  ∀ x, o = some x → 0 ≤ x ∧ x ≤ 100

/-- The component scores of the seed `health_scores` row of
database/init.sql, all five defined. -/
def seedComponents : ComponentScores where
  cash_flow := some seedCashFlow
  profitability := some seedProfitability
  leverage := some seedLeverage
  efficiency := some seedEfficiency
  stability := some seedStability

/-- The aggregate of the spec's scenario (§8) and the seed
`financial_metrics` row of database/init.sql: current_assets 145,
current_liabilities 100, annual_net_operating_income 2500000,
annual_debt_service 1351351.35 (= 27027027/20); the remaining
balance-sheet fields absent. -/
def scenarioAggregate : PeriodAggregate where
  total_inflows := 15000000
  total_outflows := 12500000
  current_assets := some 145
  current_liabilities := some 100
  inventory := none
  cash_and_equivalents := none
  total_debt := none
  equity := none
  total_assets := none
  ebit := none
  interest_expense := none
  annual_debt_service := some ((27027027 : ℚ) / 20)
  annual_net_operating_income := some 2500000
  revenue := none
  gross_profit := none
  net_income := none
  average_receivables := none
  average_payables := none
  average_inventory := none

/-- The transaction of the spec's large-transaction scenario (§8):
amount 500000. -/
def scenarioTxn : RawTxn where
  date := "2024-01-01"
  amount := 500000
  description := "large vendor payment"
  counterparty := some "Vendor"

/-- A ratio set with one defined ratio (current_ratio = 1), used to
instantiate universally quantified theorems at a concrete input. -/
def testRatioSet : RatioSet where
  current_ratio := some 1
  quick_ratio := none
  cash_ratio := none
  debt_to_equity := none
  debt_to_assets := none
  interest_coverage_ratio := none
  receivables_turnover := none
  payables_turnover := none
  inventory_turnover := none
  gross_margin := none
  operating_margin := none
  net_margin := none
  return_on_assets := none
  return_on_equity := none
  dscr := none

/-- The all-undefined ratio set. -/
def emptyRatioSet : RatioSet where
  current_ratio := none
  quick_ratio := none
  cash_ratio := none
  debt_to_equity := none
  debt_to_assets := none
  interest_coverage_ratio := none
  receivables_turnover := none
  payables_turnover := none
  inventory_turnover := none
  gross_margin := none
  operating_margin := none
  net_margin := none
  return_on_assets := none
  return_on_equity := none
  dscr := none

/-- An aggregate with `current_liabilities = 0` (and defined numerators),
used to instantiate the zero-denominator theorem at a concrete input. -/
def zeroLiabAggregate : PeriodAggregate where
  total_inflows := 0
  total_outflows := 0
  current_assets := some 50
  current_liabilities := some 0
  inventory := some 10
  cash_and_equivalents := some 5
  total_debt := none
  equity := none
  total_assets := none
  ebit := none
  interest_expense := none
  annual_debt_service := none
  annual_net_operating_income := none
  revenue := none
  gross_profit := none
  net_income := none
  average_receivables := none
  average_payables := none
  average_inventory := none

/-! ## Helper lemmas -/

lemma clamp01_bounds (x : ℚ) : 0 ≤ clamp01 x ∧ clamp01 x ≤ 100 :=
  ⟨le_max_left 0 _, max_le (by norm_num) (min_le_left _ _)⟩

lemma ratioScore_inRange (p e : ℚ) (r : Option ℚ) :
    optInRange (ratioScore p e r) := by
  intro x hx
  cases r with
  | none => simp [ratioScore] at hx
  | some v =>
    simp only [ratioScore, Option.map_some', Option.some.injEq] at hx
    exact hx ▸ clamp01_bounds _

lemma sum_le_card_mul (l : List ℚ) (h : ∀ x ∈ l, x ≤ 100) :
    l.sum ≤ 100 * (l.length : ℚ) := by
  induction l with
  | nil => simp
  | cons a t ih =>
    have ha := h a (List.mem_cons_self a t)
    have ht := ih fun x hx => h x (List.mem_cons_of_mem a hx)
    simp only [List.sum_cons, List.length_cons]
    push_cast
    linarith

lemma componentScore_inRange (l : List (Option ℚ))
    (h : ∀ o ∈ l, optInRange o) : optInRange (componentScore l) := by
  intro x hx
  unfold componentScore at hx
  by_cases hd : (l.filterMap id).length = 0
  · simp [hd] at hx
  · simp only [hd, if_false, Option.some.injEq] at hx
    have hmem : ∀ y ∈ l.filterMap id, 0 ≤ y ∧ y ≤ 100 := by
      intro y hy
      obtain ⟨o, ho, hoy⟩ := List.mem_filterMap.mp hy
      exact h o ho y hoy
    have hpos : (0 : ℚ) < ((l.filterMap id).length : ℚ) := by
      exact_mod_cast Nat.pos_of_ne_zero hd
    subst hx
    constructor
    · exact div_nonneg (List.sum_nonneg fun y hy => (hmem y hy).1) hpos.le
    · rw [div_le_iff₀ hpos]
      have := sum_le_card_mul _ (fun y hy => (hmem y hy).2)
      linarith

lemma dpart_nonneg (w : ℚ) (hw : 0 ≤ w) (o : Option ℚ) : 0 ≤ dpart w o := by
  cases o <;> simp [dpart, hw]

lemma dpart_pos (w : ℚ) (hw : 0 < w) (o : Option ℚ) (ho : o ≠ none) :
    0 < dpart w o := by
  cases o with
  | none => exact absurd rfl ho
  | some x => simpa [dpart]

lemma wpart_nonneg (w : ℚ) (hw : 0 ≤ w) (o : Option ℚ)
    (ho : optInRange o) : 0 ≤ wpart w o := by
  cases o with
  | none => simp [wpart]
  | some x => exact mul_nonneg hw (ho x rfl).1

lemma wpart_le (w : ℚ) (hw : 0 ≤ w) (o : Option ℚ) (ho : optInRange o) :
    wpart w o ≤ 100 * dpart w o := by
  cases o with
  | none => simp [wpart, dpart]
  | some x =>
    have hx := (ho x rfl).2
    simp only [wpart, dpart]
    nlinarith

lemma roundTo1_bounds {x : ℚ} (h0 : 0 ≤ x) (h1 : x ≤ 100) :
    0 ≤ roundTo1 x ∧ roundTo1 x ≤ 100 := by
  have hlo : (0 : ℤ) ≤ round (x * 10) := by
    rw [round_eq]
    exact Int.le_floor.mpr (by push_cast; linarith)
  have hhi : round (x * 10) ≤ 1000 := by
    rw [round_eq]
    have h2 : x * 10 + 1 / 2 ≤ (2001 : ℚ) / 2 := by linarith
    calc ⌊x * 10 + 1 / 2⌋ ≤ ⌊(2001 : ℚ) / 2⌋ := Int.floor_le_floor h2
      _ = 1000 := by norm_num [Int.floor_eq_iff]
  unfold roundTo1
  constructor
  · exact div_nonneg (by exact_mod_cast hlo) (by norm_num)
  · rw [div_le_iff₀ (by norm_num : (0 : ℚ) < 10)]
    calc ((round (x * 10) : ℤ) : ℚ) ≤ 1000 := by exact_mod_cast hhi
      _ = 100 * 10 := by norm_num

lemma overallScore_inRange (c : ComponentScores)
    (h1 : optInRange c.cash_flow) (h2 : optInRange c.profitability)
    (h3 : optInRange c.leverage) (h4 : optInRange c.efficiency)
    (h5 : optInRange c.stability) : optInRange (overallScore c) := by
  intro x hx
  unfold overallScore at hx
  by_cases hd : definedWeight c = 0
  · simp [hd] at hx
  · simp only [hd, if_false, Option.some.injEq] at hx
    have hDnn : 0 ≤ definedWeight c := by
      unfold definedWeight
      have d1 := dpart_nonneg 25 (by norm_num) c.cash_flow
      have d2 := dpart_nonneg 25 (by norm_num) c.profitability
      have d3 := dpart_nonneg 20 (by norm_num) c.leverage
      have d4 := dpart_nonneg 15 (by norm_num) c.efficiency
      have d5 := dpart_nonneg 15 (by norm_num) c.stability
      linarith
    have hDpos : 0 < definedWeight c := lt_of_le_of_ne hDnn (Ne.symm hd)
    have hWnn : 0 ≤ weightedSum c := by
      unfold weightedSum
      have w1 := wpart_nonneg 25 (by norm_num) _ h1
      have w2 := wpart_nonneg 25 (by norm_num) _ h2
      have w3 := wpart_nonneg 20 (by norm_num) _ h3
      have w4 := wpart_nonneg 15 (by norm_num) _ h4
      have w5 := wpart_nonneg 15 (by norm_num) _ h5
      linarith
    have hWle : weightedSum c ≤ 100 * definedWeight c := by
      unfold weightedSum definedWeight
      have w1 := wpart_le 25 (by norm_num) _ h1
      have w2 := wpart_le 25 (by norm_num) _ h2
      have w3 := wpart_le 20 (by norm_num) _ h3
      have w4 := wpart_le 15 (by norm_num) _ h4
      have w5 := wpart_le 15 (by norm_num) _ h5
      linarith
    have hq0 : 0 ≤ weightedSum c / definedWeight c :=
      div_nonneg hWnn hDnn
    have hq1 : weightedSum c / definedWeight c ≤ 100 := by
      rw [div_le_iff₀ hDpos]; linarith
    exact hx ▸ roundTo1_bounds hq0 hq1

lemma definedWeight_pos_of_defined (c : ComponentScores)
    (h : c.cash_flow ≠ none ∨ c.profitability ≠ none ∨ c.leverage ≠ none ∨
      c.efficiency ≠ none ∨ c.stability ≠ none) : 0 < definedWeight c := by
  have d1 := dpart_nonneg 25 (by norm_num) c.cash_flow
  have d2 := dpart_nonneg 25 (by norm_num) c.profitability
  have d3 := dpart_nonneg 20 (by norm_num) c.leverage
  have d4 := dpart_nonneg 15 (by norm_num) c.efficiency
  have d5 := dpart_nonneg 15 (by norm_num) c.stability
  unfold definedWeight
  rcases h with h | h | h | h | h
  · have := dpart_pos 25 (by norm_num) _ h; linarith
  · have := dpart_pos 25 (by norm_num) _ h; linarith
  · have := dpart_pos 20 (by norm_num) _ h; linarith
  · have := dpart_pos 15 (by norm_num) _ h; linarith
  · have := dpart_pos 15 (by norm_num) _ h; linarith

lemma safeDiv_zero (n : Option ℚ) : safeDiv n (some 0) = none := by
  cases n <;> simp [safeDiv]

/-! ## Claim theorems -/

/-- C1: the overall score over five defined components is the weighted sum
with weights 25/25/20/15/15 rounded to one decimal place — but on the seed
components 78/68/75/70/65 of database/init.sql that weighted sum is
71.75 (71.8 rounded), not the stored `overall_score = 72.5`: the seed row
contradicts the weighted-sum formula. -/
theorem seed_overall_differs_from_weighted_sum :
    overallScore seedComponents = some ((718 : ℚ) / 10) ∧
    weightedSum seedComponents / definedWeight seedComponents =
      (7175 : ℚ) / 100 ∧
    (718 : ℚ) / 10 ≠ seedOverallScore ∧
    (7175 : ℚ) / 100 ≠ seedOverallScore ∧
    ∀ c1 c2 c3 c4 c5 : ℚ,
      overallScore ⟨some c1, some c2, some c3, some c4, some c5⟩ =
        some (roundTo1 ((25 * c1 + 25 * c2 + 20 * c3 + 15 * c4 + 15 * c5) / 100)) := by
  have hws : weightedSum seedComponents = 7175 := by
    simp only [weightedSum, seedComponents, wpart, seedCashFlow,
      seedProfitability, seedLeverage, seedEfficiency, seedStability]
    norm_num
  have hdw : definedWeight seedComponents = 100 := by
    simp only [definedWeight, seedComponents, dpart]
    norm_num
  refine ⟨?_, ?_, ?_, ?_, ?_⟩
  · rw [overallScore, hdw, hws]
    norm_num [roundTo1, round_eq, Int.floor_eq_iff]
  · rw [hws, hdw]
  · unfold seedOverallScore; norm_num
  · unfold seedOverallScore; norm_num
  · intro c1 c2 c3 c4 c5
    rw [overallScore]
    simp [weightedSum, definedWeight, wpart, dpart]
    norm_num

/-- C2: banding the frontend HealthScore page's score 72.5 (no open
anomalies) gives risk level medium, matching the seed row's 'medium' in
database/init.sql — and contradicting the page's hard-coded
`riskLevel = 'low'`. -/
theorem page_riskLevel_contradicts_banding :
    riskLevelOf healthScorePageScore [] = RiskLevel.medium ∧
    (riskLevelOf healthScorePageScore []).name = seedRiskLevel ∧
    healthScorePageRiskLevel ≠ (riskLevelOf healthScorePageScore []).name := by
  have h : riskLevelOf healthScorePageScore [] = RiskLevel.medium := by
    simp only [riskLevelOf, riskBand, openAnomalies, healthScorePageScore]
    norm_num
  refine ⟨h, ?_, ?_⟩
  · rw [h]; rfl
  · rw [h]; decide

/-- C3: one open critical-severity anomaly escalates the risk level by
exactly one band from the base band of the overall score; at overall 85
(low band) the reported level is medium; the reported risk level never
exceeds critical. -/
theorem critical_anomaly_escalates_one_band (overall : ℚ) (a : Anomaly)
    (hs : a.severity = RiskLevel.critical) (hr : a.is_resolved = false) :
    riskLevelOf overall [a] = escalateOne (riskBand overall) ∧
    (overall = 85 → riskLevelOf overall [a] = RiskLevel.medium) ∧
    ∀ (s : ℚ) (as : List Anomaly),
      RiskLevel.rank (riskLevelOf s as) ≤ RiskLevel.rank RiskLevel.critical := by
  have h1 : riskLevelOf overall [a] = escalateOne (riskBand overall) := by
    simp [riskLevelOf, openAnomalies, hr, hs]
  refine ⟨h1, ?_, ?_⟩
  · rintro rfl
    rw [h1]
    have hb : riskBand (85 : ℚ) = RiskLevel.low := by
      unfold riskBand; norm_num
    rw [hb]
    rfl
  · intro s as
    cases riskLevelOf s as <;> simp [RiskLevel.rank]

theorem critical_anomaly_escalates_one_band_sample :
    riskLevelOf 85 [⟨"large_transaction", RiskLevel.critical, false⟩] =
      RiskLevel.medium :=
  (critical_anomaly_escalates_one_band 85
    ⟨"large_transaction", RiskLevel.critical, false⟩ rfl rfl).2.1 rfl

/-- C4: for every RatioSet, each of the five component scores is in [0,100]
or undefined; the overall score is in [0,100] whenever defined, and it is
defined whenever at least one component is; a pathological negative margin
maps to the floor 0, never to a negative score. -/
theorem component_and_overall_scores_bounded (r : RatioSet) :
    optInRange (scoreComponents r).cash_flow ∧
    optInRange (scoreComponents r).profitability ∧
    optInRange (scoreComponents r).leverage ∧
    optInRange (scoreComponents r).efficiency ∧
    optInRange (scoreComponents r).stability ∧
    optInRange (overallScore (scoreComponents r)) ∧
    ((scoreComponents r).cash_flow ≠ none ∨
      (scoreComponents r).profitability ≠ none ∨
      (scoreComponents r).leverage ≠ none ∨
      (scoreComponents r).efficiency ≠ none ∨
      (scoreComponents r).stability ≠ none →
      overallScore (scoreComponents r) ≠ none) ∧
    ratioScore 0 15 (some (-5)) = some 0 := by
  have hcf : optInRange (scoreComponents r).cash_flow := by
    apply componentScore_inRange
    intro o ho
    fin_cases ho <;> exact ratioScore_inRange _ _ _
  have hpr : optInRange (scoreComponents r).profitability := by
    apply componentScore_inRange
    intro o ho
    fin_cases ho <;> exact ratioScore_inRange _ _ _
  have hlv : optInRange (scoreComponents r).leverage := by
    apply componentScore_inRange
    intro o ho
    fin_cases ho <;> exact ratioScore_inRange _ _ _
  have hef : optInRange (scoreComponents r).efficiency := by
    apply componentScore_inRange
    intro o ho
    fin_cases ho <;> exact ratioScore_inRange _ _ _
  have hst : optInRange (scoreComponents r).stability := by
    apply componentScore_inRange
    intro o ho
    fin_cases ho
    exact ratioScore_inRange _ _ _
  refine ⟨hcf, hpr, hlv, hef, hst,
    overallScore_inRange _ hcf hpr hlv hef hst, ?_, ?_⟩
  · intro h
    have hpos := definedWeight_pos_of_defined _ h
    simp [overallScore, hpos.ne']
  · simp [ratioScore, clamp01]
    norm_num

theorem component_and_overall_scores_bounded_sample :
    overallScore (scoreComponents testRatioSet) ≠ none :=
  (component_and_overall_scores_bounded testRatioSet).2.2.2.2.2.2.1
    (Or.inl (by simp [scoreComponents, componentScore, ratioScore, testRatioSet]))

/-- C5: when `current_liabilities = 0`, the Ratio Calculator returns the
undefined marker for current_ratio, quick_ratio and cash_ratio — never
infinity, zero, or an exception. -/
theorem liquidity_ratios_undefined_on_zero_liabilities (a : PeriodAggregate)
    (h : a.current_liabilities = some 0) :
    (computeRatios a).current_ratio = none ∧
    (computeRatios a).quick_ratio = none ∧
    (computeRatios a).cash_ratio = none := by
  refine ⟨?_, ?_, ?_⟩ <;> simp [computeRatios, h, safeDiv_zero]

theorem liquidity_ratios_undefined_on_zero_liabilities_sample :
    (computeRatios zeroLiabAggregate).current_ratio = none :=
  (liquidity_ratios_undefined_on_zero_liabilities zeroLiabAggregate rfl).1

/-- C6: on the scenario aggregate (current_assets 145,
current_liabilities 100) the current ratio is 1.45, and with
annual_net_operating_income 2500000 over annual_debt_service 1351351.35
the DSCR is 50000000/27027027 ≈ 1.85 (within 1/100 of 1.85). -/
theorem scenario_current_ratio_and_dscr :
    (computeRatios scenarioAggregate).current_ratio = some ((145 : ℚ) / 100) ∧
    (computeRatios scenarioAggregate).dscr = some ((50000000 : ℚ) / 27027027) ∧
    |((50000000 : ℚ) / 27027027) - (185 : ℚ) / 100| < 1 / 100 := by
  refine ⟨?_, ?_, ?_⟩
  · simp [computeRatios, scenarioAggregate, safeDiv]
  · simp [computeRatios, scenarioAggregate, safeDiv]
    norm_num
  · rw [abs_lt]
    constructor <;> norm_num

/-- C7: the large_transaction rule flags exactly the transactions whose
absolute amount exceeds max(3 × baseline mean, floor); in the spec's
scenario (amount 500000, mean 50000, floor 150000) the threshold is 150000
and the single flagged anomaly carries severity high — above medium. -/
theorem large_transaction_rule_flags_over_threshold
    (baselineMean floorAmt : ℚ) (ts : List RawTxn)
    (t : RawTxn) (ht : t ∈ ts) :
    ((∃ a ∈ detectLarge baselineMean floorAmt ts, a.txn = t) ↔
      largeThreshold baselineMean floorAmt < |t.amount|) ∧
    largeThreshold 50000 150000 = 150000 ∧
    detectLarge 50000 150000 [scenarioTxn] =
      [⟨scenarioTxn, 150000, RiskLevel.high⟩] ∧
    RiskLevel.rank RiskLevel.medium < RiskLevel.rank RiskLevel.high := by
  refine ⟨?_, ?_, ?_, ?_⟩
  · constructor
    · rintro ⟨a, ha, hat⟩
      obtain ⟨x, hx, rfl⟩ := List.mem_map.mp ha
      have hdec := (List.mem_filter.mp hx).2
      have hxt : x = t := hat
      subst hxt
      exact of_decide_eq_true hdec
    · intro hlt
      exact ⟨_, List.mem_map_of_mem _
        (List.mem_filter.mpr ⟨ht, decide_eq_true hlt⟩), rfl⟩
  · unfold largeThreshold
    norm_num
  · norm_num [detectLarge, largeThreshold, largeTxnSeverity, scenarioTxn,
      List.filter]
  · simp [RiskLevel.rank]

theorem large_transaction_rule_flags_over_threshold_sample :
    RiskLevel.rank RiskLevel.medium < RiskLevel.rank RiskLevel.high :=
  (large_transaction_rule_flags_over_threshold 50000 150000 [scenarioTxn]
    scenarioTxn (by simp)).2.2.2

/-- C8: the Transaction Normalizer keeps every transaction (same output
count), assigns "credit" exactly when amount > 0 and "debit" otherwise
(amount = 0 included), keeps the amount, and assigns the matched category
with fallback "uncategorized" when no rule matches. -/
theorem normalizer_total_and_classifies (ts : List RawTxn) :
    (normalize ts).length = ts.length ∧
    ∀ t ∈ ts,
      (normalizeOne t).transaction_type =
        (if t.amount > 0 then "credit" else "debit") ∧
      (normalizeOne t).amount = t.amount ∧
      (classifyCategory t.description = none →
        (normalizeOne t).category = "uncategorized") ∧
      (∀ c, classifyCategory t.description = some c →
        (normalizeOne t).category = c) ∧
      (t.amount = 0 → (normalizeOne t).transaction_type = "debit") := by
  constructor
  · simp [normalize]
  · intro t _
    refine ⟨rfl, rfl, ?_, ?_, ?_⟩
    · intro h; simp [normalizeOne, h]
    · intro c h; simp [normalizeOne, h]
    · intro h0; simp [normalizeOne, h0]

theorem normalizer_total_and_classifies_sample :
    (normalizeOne ⟨"2024-01-01", 0, "misc expense", none⟩).category =
      "uncategorized" :=
  ((normalizer_total_and_classifies
    [⟨"2024-01-01", 0, "misc expense", none⟩]).2 _ (by simp)).2.2.1 (by decide)

/-- C9: the Composite Scorer and the Narrative Formatter are deterministic:
equal RatioSet and Anomaly inputs produce equal HealthScore values and
equal narrative strings — both are pure functions of their inputs, with no
clock or randomness dependency. -/
theorem scorer_and_formatter_deterministic (r1 r2 : RatioSet)
    (a1 a2 : List Anomaly) (hr : r1 = r2) (ha : a1 = a2) :
    healthScoreOf r1 a1 = healthScoreOf r2 a2 ∧
    formatNarrative (healthScoreOf r1 a1) =
      formatNarrative (healthScoreOf r2 a2) := by
  subst hr
  subst ha
  exact ⟨rfl, rfl⟩

theorem scorer_and_formatter_deterministic_sample :
    healthScoreOf emptyRatioSet [] = healthScoreOf emptyRatioSet [] :=
  (scorer_and_formatter_deterministic emptyRatioSet emptyRatioSet [] []
    rfl rfl).1

/-- C10: getScoreColor is total over the four labels and monotone
(non-decreasing rank) in the score, with the boundary scores 40, 60, 80
mapping to the better band. -/
theorem getScoreColor_total_and_monotone (s1 s2 : ℚ) (h : s1 ≤ s2) :
    ScoreColor.rank (getScoreColor s1) ≤ ScoreColor.rank (getScoreColor s2) ∧
    getScoreColor (80 : ℚ) = ScoreColor.success ∧
    getScoreColor (60 : ℚ) = ScoreColor.primary ∧
    getScoreColor (40 : ℚ) = ScoreColor.warning ∧
    ∀ s : ℚ, getScoreColor s = ScoreColor.danger ∨
      getScoreColor s = ScoreColor.warning ∨
      getScoreColor s = ScoreColor.primary ∨
      getScoreColor s = ScoreColor.success := by
  refine ⟨?_, ?_, ?_, ?_, ?_⟩
  · unfold getScoreColor
    split_ifs <;> simp_all [ScoreColor.rank] <;> linarith
  · unfold getScoreColor; norm_num
  · unfold getScoreColor; norm_num
  · unfold getScoreColor; norm_num
  · intro s; unfold getScoreColor; split_ifs <;> simp

theorem getScoreColor_total_and_monotone_sample :
    ScoreColor.rank (getScoreColor 30) ≤ ScoreColor.rank (getScoreColor 90) :=
  (getScoreColor_total_and_monotone 30 90 (by norm_num)).1

end SMEPulse
